import Mathlib

/-
Verification of the handle layer in src/lmdb/cpython.c: a shallow embedding of
the flag computations, result-code handling, handle-lifecycle state machines,
bulk-put loop and iterator stepping of that file, together with small models of
the engine primitives they call (the engine itself is an external dependency;
where one of its primitives decides a property, the model is marked as taken
from the specification).  Byte strings are lists of naturals; machine flag words
are naturals combined with bitwise or, exactly as the C computes them.
-/

-- ======================================================================
-- Status codes and flag constants of the engine header (lmdb.h), plus
-- the host error kinds raised by cpython.c (err_invalid / err_set /
-- type_error).
-- ======================================================================

def MDB_NOTFOUND : Int := -30798

def MDB_KEYEXIST : Int := -30799

def EINVAL : Int := 22

def MDB_NOOVERWRITE : Nat := 0x10

def MDB_NODUPDATA : Nat := 0x20

def MDB_APPEND : Nat := 0x20000

def MDB_RDONLY : Nat := 0x20000

abbrev Bytes := List Nat

/-- Error kinds raised by cpython.c: err_invalid (operation on a
closed/deleted object), err_set (an engine status code wrapped in
lmdb.Error, the EngineError kind; the wrapped code is carried), and
type_error. -/
inductive Err where
  | invalidHandle
  | engineError (rc : Int)
  | typeError
deriving DecidableEq, Repr

/-- Outcome of a call into the layer: a returned value or a raised error. -/
inductive PyRes (α : Type) where
  | ok (val : α)
  | raised (e : Err)
deriving DecidableEq, Repr

-- ======================================================================
-- put flag words (generic_put lines 727-736, env_puts lines 1475-1484,
-- cursor_put lines 2000-2009).  Note cursor_put tests the append
-- argument negated, unlike the other two.
-- ======================================================================

/-- Flag word computed by generic_put from its dupdata / overwrite / append
arguments (cpython.c lines 727-736). -/
def generic_put_flags (dupdata overwrite append : Bool) : Nat :=
  (if !dupdata then MDB_NODUPDATA else 0) |||
  (if !overwrite then MDB_NOOVERWRITE else 0) |||
  (if append then MDB_APPEND else 0)

/-- Flag word computed by env_puts (cpython.c lines 1475-1484); same tests
as generic_put. -/
def env_puts_flags (dupdata overwrite append : Bool) : Nat :=
  (if !dupdata then MDB_NODUPDATA else 0) |||
  (if !overwrite then MDB_NOOVERWRITE else 0) |||
  (if append then MDB_APPEND else 0)

/-- Flag word computed by cursor_put (cpython.c lines 2000-2009).  The
source reads: if(! arg.append) flags |= MDB_APPEND; -- the test is on the
negation of append, unlike generic_put and env_puts. -/
def cursor_put_flags (dupdata overwrite append : Bool) : Nat :=
  (if !dupdata then MDB_NODUPDATA else 0) |||
  (if !overwrite then MDB_NOOVERWRITE else 0) |||
  (if !append then MDB_APPEND else 0)

/-- Default for the dupdata argument, from the struct initializers at
cpython.c lines 712, 1431 and 1986 (the third scalar field, 0). -/
def put_default_dupdata : Bool := false

/-- Default for the overwrite argument, from the same initializers (1). -/
def put_default_overwrite : Bool := true

/-- Default for the append argument, from the same initializers (0). -/
def put_default_append : Bool := false

-- ======================================================================
-- Result-code handling of generic_get / generic_put / generic_delete
-- (cpython.c lines 661-784).  Each takes the valid flag its caller
-- passes to parse_args and the status code the engine call returned.
-- ======================================================================

/-- generic_get (cpython.c lines 661-699): parse_args rejects when the
handle is invalid; a missing key argument is a TypeError; engine status
MDB_NOTFOUND returns the caller default (itself defaulting to None, here
the value none); any other nonzero status raises EngineError; success
returns the fetched value. -/
def generic_get (valid keyGiven : Bool) (rc : Int) (v : Bytes)
    (default_ : Option Bytes) : PyRes (Option Bytes) :=
  if !valid then .raised .invalidHandle
  else if !keyGiven then .raised .typeError
  else if rc ≠ 0 then
    if rc = MDB_NOTFOUND then .ok default_
    else .raised (.engineError rc)
  else .ok (some v)

/-- generic_put result handling (cpython.c lines 744-752): engine status
MDB_KEYEXIST returns False, any other nonzero status raises EngineError,
success returns True. -/
def generic_put (valid : Bool) (rc : Int) : PyRes Bool :=
  if !valid then .raised .invalidHandle
  else if rc ≠ 0 then
    if rc = MDB_KEYEXIST then .ok false
    else .raised (.engineError rc)
  else .ok true

/-- generic_delete result handling (cpython.c lines 774-783): engine
status MDB_NOTFOUND returns False, any other nonzero status raises
EngineError, success returns True. -/
def generic_delete (valid : Bool) (rc : Int) : PyRes Bool :=
  if !valid then .raised .invalidHandle
  else if rc ≠ 0 then
    if rc = MDB_NOTFOUND then .ok false
    else .raised (.engineError rc)
  else .ok true

/-- Value pointer passed by generic_delete to mdb_del (cpython.c line 774):
val_ptr = arg.val.mv_size ? &arg.val : NULL.  The default value argument is
a zero-length buffer, so an explicitly supplied empty value and no value at
all both become NULL. -/
def generic_delete_valPtr (value : Option Bytes) : Option Bytes :=
  match value with
  | none => none
  | some v => if v.length ≠ 0 then some v else none

/-- Modelled from the spec: the engine delete primitive mdb_del (engine
source is not under src/).  Section 4.3: delete with no supplied value
removes all values stored under the key; with a value it removes only that
exact duplicate; an absent key or key/value pair reports the NOTFOUND
status and leaves the store unchanged. -/
def mdb_del (store : List (Bytes × Bytes)) (key : Bytes)
    (vptr : Option Bytes) : Int × List (Bytes × Bytes) :=
  match vptr with
  | none =>
      if store.any (fun p => decide (p.1 = key)) then
        (0, store.filter (fun p => decide (p.1 ≠ key)))
      else (MDB_NOTFOUND, store)
  | some v =>
      if store.any (fun p => decide (p = (key, v))) then
        (0, store.erase (key, v))
      else (MDB_NOTFOUND, store)

/-- Engine call made by generic_delete for a given key and optional value
argument: mdb_del on the pointer computed by generic_delete_valPtr. -/
def generic_delete_call (store : List (Bytes × Bytes)) (key : Bytes)
    (value : Option Bytes) : Int × List (Bytes × Bytes) :=
  mdb_del store key (generic_delete_valPtr value)

-- ======================================================================
-- Environment handle state and its public operations (cpython.c lines
-- 954-1677), as far as the claims need them: close, begin, open_db.
-- ======================================================================

/-- Environment handle state: the valid flag, whether the MDB_env pointer
is still non-NULL, and the readonly flag recorded at open. -/
structure EnvSt where
  valid : Bool
  envPtr : Bool
  readonly : Bool
deriving DecidableEq, Repr

/-- env_close (cpython.c lines 1127-1140): when valid, cascade-invalidate
the children, clear the valid flag, call mdb_env_close and NULL the engine
pointer; otherwise do nothing.  The returned Bool records whether
mdb_env_close was invoked this call.  The method returns None
unconditionally (Py_RETURN_NONE). -/
def env_close (s : EnvSt) : EnvSt × Bool :=
  if s.valid then ({ s with valid := false, envPtr := false }, true)
  else (s, false)

/-- Outcome of make_trans (cpython.c lines 786-827) and of the entry
points that reach it: err_invalid from the validity checks, the err_set
raised for a write transaction on a read-only environment (before
mdb_txn_begin is reached), a TypeError from argument validation, or the
mdb_txn_begin call actually issued, with the flag word passed and whether
a parent engine transaction was supplied. -/
inductive MakeTransOutcome where
  | invalidErr
  | readonlyErr
  | typeErr
  | beginCall (flags : Nat) (hasParentTxn : Bool)
deriving DecidableEq, Repr

/-- make_trans (cpython.c lines 786-827): checks env->valid, then the
validity of the optional parent transaction, then rejects write=true on a
read-only environment with err_set -- before any mdb_txn_begin.  Otherwise
it reaches mdb_txn_begin with flags 0 for a genuine write transaction and
MDB_RDONLY otherwise.  The child is linked into the tree only after a
successful begin, so the two error branches leave the environment
untouched. -/
def make_trans (env : EnvSt) (parentValid : Option Bool) (write : Bool) :
    MakeTransOutcome :=
  if !env.valid then .invalidErr
  else if parentValid = some false then .invalidErr
  else if write && env.readonly then .readonlyErr
  else .beginCall (if write && !env.readonly then 0 else MDB_RDONLY)
    parentValid.isSome

/-- env_begin (cpython.c lines 1106-1125): parse_args receives self->valid,
then make_trans runs. -/
def env_begin (s : EnvSt) (parentValid : Option Bool) (write : Bool) :
    MakeTransOutcome :=
  if !s.valid then .invalidErr
  else make_trans s parentValid write

/-- trans_new, the Transaction constructor (cpython.c lines 2308-2332):
the argument record is initialized with env = NULL and the test
if(! arg.env) runs BEFORE parse_args has filled the record from the call
arguments, so the constructor raises TypeError on every call, whatever
arguments are supplied, and never reaches make_trans. -/
def trans_new (envArg : Option EnvSt) (parentValid : Option Bool)
    (write buffers : Bool) : MakeTransOutcome :=
  match (none : Option EnvSt) with
  | none => .typeErr
  | some e =>
      if write || buffers || parentValid.isSome || envArg.isSome then
        make_trans e parentValid write
      else make_trans e parentValid write

/-- Outcome of env_open_db (cpython.c lines 1184-1223): parse_args
receives the literal 1 rather than self->valid (line 1203), so no
err_invalid branch exists in the source; with no caller transaction the
call reaches mdb_txn_begin on self->env inside txn_db_from_name (NULL
after close), and with a caller transaction it reaches mdb_dbi_open on
that transaction inside db_from_name. -/
inductive OpenDbOutcome where
  | invalidErr
  | beginCallNullEnv
  | beginCall
  | dbiCall (txnLive : Bool)
deriving DecidableEq, Repr

/-- env_open_db (cpython.c lines 1184-1223), faithful to the source: the
valid flag passed to parse_args is the constant 1, so the function never
raises err_invalid and proceeds to the engine calls even on a closed
environment. -/
def env_open_db (s : EnvSt) (txnArg : Option Bool) : OpenDbOutcome :=
  match txnArg with
  | some txnPtr => .dbiCall txnPtr
  | none => if s.envPtr then .beginCall else .beginCallNullEnv

-- ======================================================================
-- Transaction terminal operations (cpython.c lines 2279-2367).
-- ======================================================================

/-- Transaction handle state: the valid flag and whether the MDB_txn
pointer is still non-NULL. -/
structure TransSt where
  valid : Bool
  txnPtr : Bool
deriving DecidableEq, Repr

/-- trans_abort (cpython.c lines 2335-2349): on an invalid handle raises
err_invalid without touching the engine; otherwise cascade-invalidates the
children, calls mdb_txn_abort, NULLs the pointer and clears valid.  The
Bool records whether mdb_txn_abort was invoked this call. -/
def trans_abort (s : TransSt) : TransSt × Bool × PyRes Unit :=
  if s.valid then ({ valid := false, txnPtr := false }, true, .ok ())
  else (s, false, .raised .invalidHandle)

/-- trans_commit (cpython.c lines 2351-2367): on an invalid handle raises
err_invalid without touching the engine; otherwise calls mdb_txn_commit,
NULLs the pointer and clears valid whatever the status, and surfaces a
nonzero commit status as EngineError.  The Bool records whether
mdb_txn_commit was invoked this call. -/
def trans_commit (s : TransSt) (rc : Int) : TransSt × Bool × PyRes Unit :=
  if s.valid then
    ({ valid := false, txnPtr := false }, true,
      if rc ≠ 0 then .raised (.engineError rc) else .ok ())
  else (s, false, .raised .invalidHandle)

-- ======================================================================
-- env_puts bulk loop (cpython.c lines 1422-1541).
-- ======================================================================

/-- One element of the items iterable handed to env_puts: either a
well-formed key/value pair or an element the loop rejects before the
engine call (not a 2-tuple, or a buffer conversion failure). -/
inductive PutsElem where
  | bad
  | pair (k v : Bytes)
deriving DecidableEq, Repr

/-- Whether the env_puts loop treats an element as a failure: a malformed
element always, a pair exactly when the engine put status is neither
success nor MDB_KEYEXIST (cpython.c lines 1490-1522). -/
def elemFails (rcOf : Bytes → Bytes → Int) : PutsElem → Bool
  | .bad => true
  | .pair k v =>
      let rc := rcOf k v
      if rc = 0 then false
      else if rc = MDB_KEYEXIST then false
      else true

/-- The env_puts element loop (cpython.c lines 1490-1522): success appends
True to the result list, MDB_KEYEXIST appends False, and any failure sets
an error and breaks.  Returns the accumulated results and whether an error
occurred.  rcOf gives the engine status for each pair put inside the
implicit transaction. -/
def env_puts_loop (rcOf : Bytes → Bytes → Int) :
    List PutsElem → List Bool → List Bool × Bool
  | [], acc => (acc, false)
  | .bad :: _, acc => (acc, true)
  | .pair k v :: rest, acc =>
      let rc := rcOf k v
      if rc = 0 then env_puts_loop rcOf rest (acc ++ [true])
      else if rc = MDB_KEYEXIST then env_puts_loop rcOf rest (acc ++ [false])
      else (acc, true)

/-- How the implicit transaction of a bulk call ended. -/
inductive TxnEnd where
  | committed
  | aborted
deriving DecidableEq, Repr

/-- env_puts after the implicit mdb_txn_begin succeeded (cpython.c lines
1486-1541): run the loop; if an error occurred, mdb_txn_abort the implicit
transaction and drop the result list (the call raises); otherwise
mdb_txn_commit it, surfacing a commit failure as an error.  Returns which
terminal engine call ended the transaction and the result list, none
standing for a raised error. -/
def env_puts (rcOf : Bytes → Bytes → Int) (items : List PutsElem)
    (commitRc : Int) : TxnEnd × Option (List Bool) :=
  let r := env_puts_loop rcOf items []
  if r.2 then (.aborted, none)
  else if commitRc ≠ 0 then (.committed, none)
  else (.committed, some r.1)

-- ======================================================================
-- Cursor state, _cursor_get_c, cursor_count, iterators (cpython.c lines
-- 1715-2272).
-- ======================================================================

/-- Positioning modes passed to mdb_cursor_get by the cursor methods. -/
inductive CursorOp where
  | first
  | last
  | next
  | prev
  | set_key
  | set_range
  | get_current
deriving DecidableEq, Repr

/-- Cursor handle state: the valid flag, the positioned flag and the
cached key/value pair. -/
structure CursorSt where
  valid : Bool
  positioned : Bool
  key : Bytes
  val : Bytes
deriving DecidableEq, Repr

/-- Response of one mdb_cursor_get call: the pair found (status 0) or a
nonzero status code. -/
inductive EngineGetRes where
  | found (k v : Bytes)
  | fail (rc : Int)
deriving DecidableEq, Repr

/-- _cursor_get_c (cpython.c lines 1789-1806): positioned becomes
(status = 0); on any failure the cached key and value are cleared;
MDB_NOTFOUND is not an error, EINVAL is forgiven only for the
MDB_GET_CURRENT mode, and every other failure raises (the returned Bool
records a raised error). -/
def cursor_get_c (op : CursorOp) (resp : EngineGetRes) (c : CursorSt) :
    CursorSt × Bool :=
  match resp with
  | .found k v => ({ c with positioned := true, key := k, val := v }, false)
  | .fail rc =>
      let c2 := { c with positioned := false, key := [], val := [] }
      if rc = MDB_NOTFOUND then (c2, false)
      else if rc = EINVAL ∧ op = .get_current then (c2, false)
      else (c2, true)

/-- cursor_count (cpython.c lines 1772-1786): err_invalid on an invalid
handle, otherwise the mdb_cursor_count status and count are forwarded
unchanged -- there is no positioned check and no special case returning
0. -/
def cursor_count (valid : Bool) (rc : Int) (count : Nat) : PyRes Nat :=
  if !valid then .raised .invalidHandle
  else if rc ≠ 0 then .raised (.engineError rc)
  else .ok count

/-- Modelled from the spec: the engine duplicate-count primitive
mdb_cursor_count (engine source is not under src/).  Per sections 4.4 and
6, an engine call that needs an established cursor position fails with
status EINVAL when the cursor has none (the status the spec notes for
refresh-current on a cursor with no state); when positioned it reports the
number of duplicates at the current key with status 0. -/
def mdb_cursor_count (positioned : Bool) (dups : Nat) : Int × Nat :=
  if positioned then (0, dups) else (EINVAL, 0)

/-- The count() method end to end: the wrapper applied to the engine
response for the current cursor position. -/
def cursor_count_op (valid positioned : Bool) (dups : Nat) : PyRes Nat :=
  cursor_count valid (mdb_cursor_count positioned dups).1
    (mdb_cursor_count positioned dups).2

/-- Iterator state (cpython.c lines 313-319): the started flag and the
fixed movement operator chosen at construction. -/
structure IterSt where
  started : Bool
  op : CursorOp
deriving DecidableEq, Repr

/-- What one iterator step produced: err_invalid on a dead cursor, end of
sequence (NULL with no error set), an engine error raised by the move, or
a yielded item (the cursor cache the projection reads). -/
inductive IterOut where
  | invalidErr
  | stopIter
  | engineErr
  | yieldVal (k v : Bytes)
deriving DecidableEq, Repr

/-- iter_next (cpython.c lines 2236-2256): err_invalid if the cursor is
invalid; end of sequence if it is unpositioned; if already started, one
mdb_cursor_get with the fixed operator (the returned list logs the moves
issued), ending the sequence if the cursor comes back unpositioned;
otherwise no move.  A surviving step yields the cursor cache and sets
started. -/
def iter_next (resp : EngineGetRes) (c : CursorSt) (it : IterSt) :
    CursorSt × IterSt × IterOut × List CursorOp :=
  if !c.valid then (c, it, .invalidErr, [])
  else if !c.positioned then (c, it, .stopIter, [])
  else if it.started then
    let r := cursor_get_c it.op resp c
    if r.2 then (r.1, it, .engineErr, [it.op])
    else if !r.1.positioned then (r.1, it, .stopIter, [it.op])
    else (r.1, { it with started := true }, .yieldVal r.1.key r.1.val,
      [it.op])
  else (c, { it with started := true }, .yieldVal c.key c.val, [])

-- ======================================================================
-- Helper lemmas
-- ======================================================================

/-- The error flag of the env_puts loop is exactly: some element fails. -/
theorem env_puts_loop_err (rcOf : Bytes → Bytes → Int) :
    ∀ (items : List PutsElem) (acc : List Bool),
      (env_puts_loop rcOf items acc).2 = items.any (elemFails rcOf) := by
  intro items
  induction items with
  | nil => intro acc; rfl
  | cons e rest ih =>
      intro acc
      cases e with
      | bad => simp [env_puts_loop, elemFails]
      | pair k v =>
          by_cases h0 : rcOf k v = 0
          · simp [env_puts_loop, elemFails, h0, ih]
          · by_cases h1 : rcOf k v = MDB_KEYEXIST
            · simp [env_puts_loop, elemFails, h0, h1, ih, MDB_KEYEXIST]
            · simp [env_puts_loop, elemFails, h0, h1]

-- ======================================================================
-- Claim theorems
-- ======================================================================

/-- Claim C1: the claim says every public operation on a handle whose
valid flag is false (after close/abort/commit on it or an ancestor) fails
with InvalidHandle.  The code violates this for env_open_db: it passes the
literal 1 to parse_args instead of self->valid, so on a closed environment
open_db does not raise InvalidHandle but proceeds to call mdb_txn_begin on
the already NULLed MDB_env pointer, while env_begin on the same closed
environment correctly raises InvalidHandle. -/
theorem c1_open_db_skips_valid_check :
    ((env_close { valid := true, envPtr := true, readonly := false }).1.valid
        = false)
    ∧ env_open_db
        (env_close { valid := true, envPtr := true, readonly := false }).1
        none = .beginCallNullEnv
    ∧ env_open_db
        (env_close { valid := true, envPtr := true, readonly := false }).1
        none ≠ .invalidErr
    ∧ env_begin
        (env_close { valid := true, envPtr := true, readonly := false }).1
        none false = .invalidErr := by
  refine ⟨rfl, rfl, ?_, rfl⟩
  intro h
  exact OpenDbOutcome.noConfusion h

/-- Claim C2 counterexample: with the default arguments (dupdata=0,
overwrite=1, append=0) the flag word generic_put passes to mdb_put has
MDB_NODUPDATA set, so it is false that neither the no-overwrite flag nor
the no-duplicate-data flag is set by default. -/
theorem c2_default_flags_counterexample :
    generic_put_flags put_default_dupdata put_default_overwrite
      put_default_append &&& MDB_NODUPDATA ≠ 0 := by
  decide

/-- Claim C2 (amended): with the default arguments, every put entry point
(generic_put for transaction-level put, env_puts for bulk put, cursor_put)
leaves the no-overwrite flag clear but sets the no-duplicate-data flag,
because dupdata defaults to false. -/
theorem c2_default_flags :
    (generic_put_flags put_default_dupdata put_default_overwrite
        put_default_append &&& MDB_NOOVERWRITE = 0)
    ∧ (generic_put_flags put_default_dupdata put_default_overwrite
        put_default_append &&& MDB_NODUPDATA ≠ 0)
    ∧ (env_puts_flags put_default_dupdata put_default_overwrite
        put_default_append &&& MDB_NOOVERWRITE = 0)
    ∧ (env_puts_flags put_default_dupdata put_default_overwrite
        put_default_append &&& MDB_NODUPDATA ≠ 0)
    ∧ (cursor_put_flags put_default_dupdata put_default_overwrite
        put_default_append &&& MDB_NOOVERWRITE = 0)
    ∧ (cursor_put_flags put_default_dupdata put_default_overwrite
        put_default_append &&& MDB_NODUPDATA ≠ 0) := by
  decide

/-- Claim C3: the claim says MDB_APPEND is passed iff the caller supplied
append=true.  That holds for generic_put and env_puts, but cursor_put
inverts the test (if(! arg.append) flags |= MDB_APPEND), so with the
default append=false the cursor put passes MDB_APPEND to the engine, and
with append=true it omits it. -/
theorem c3_append_flag :
    (∀ d o a : Bool,
        (generic_put_flags d o a &&& MDB_APPEND ≠ 0) ↔ a = true)
    ∧ (∀ d o a : Bool,
        (env_puts_flags d o a &&& MDB_APPEND ≠ 0) ↔ a = true)
    ∧ (cursor_put_flags put_default_dupdata put_default_overwrite false
        &&& MDB_APPEND ≠ 0)
    ∧ (cursor_put_flags put_default_dupdata put_default_overwrite true
        &&& MDB_APPEND = 0) := by
  refine ⟨?_, ?_, by decide, by decide⟩ <;> · decide

/-- Claim C4: a not-found condition is a normal return value, never a
raised error: on a valid transaction handle, generic_get maps the
MDB_NOTFOUND status to the caller default (none, standing for None, when
no default was given), generic_put under no-overwrite maps MDB_KEYEXIST to
False, and generic_delete maps MDB_NOTFOUND to False. -/
theorem c4_notfound_is_a_value :
    ∀ (v : Bytes) (d : Option Bytes),
      generic_get true true MDB_NOTFOUND v d = .ok d
      ∧ generic_get true true MDB_NOTFOUND v none = .ok none
      ∧ generic_put true MDB_KEYEXIST = .ok false
      ∧ generic_delete true MDB_NOTFOUND = .ok false := by
  intro v d
  exact ⟨rfl, rfl, rfl, rfl⟩

/-- Claim C5: a second terminal call on the same handle is safe.
Whatever the starting state, a second env_close is a no-op returning
normally without invoking mdb_env_close again, and a second terminal call
on a transaction (abort or commit, after either) raises InvalidHandle
without invoking the engine release again. -/
theorem c5_terminal_twice_safe :
    ∀ (e : EnvSt) (s : TransSt) (rc rc2 : Int),
      (env_close (env_close e).1 = ((env_close e).1, false))
      ∧ (trans_abort (trans_abort s).1
          = ((trans_abort s).1, false, .raised .invalidHandle))
      ∧ (trans_abort (trans_commit s rc).1
          = ((trans_commit s rc).1, false, .raised .invalidHandle))
      ∧ (trans_commit (trans_commit s rc).1 rc2
          = ((trans_commit s rc).1, false, .raised .invalidHandle))
      ∧ (trans_commit (trans_abort s).1 rc2
          = ((trans_abort s).1, false, .raised .invalidHandle)) := by
  intro e s rc rc2
  refine ⟨?_, ?_, ?_, ?_, ?_⟩ <;>
    first
      | (by_cases h : e.valid <;> simp [env_close, h])
      | (by_cases h : s.valid <;> simp [trans_abort, trans_commit, h])

/-- Claim C6: if any element of an env_puts batch fails, the implicit
transaction is aborted (not committed) and the call returns an error
rather than a partial result list. -/
theorem c6_bulk_abort_on_failure (rcOf : Bytes → Bytes → Int)
    (items : List PutsElem) (commitRc : Int)
    (h : items.any (elemFails rcOf) = true) :
    env_puts rcOf items commitRc = (.aborted, none) := by
  have he := env_puts_loop_err rcOf items []
  rw [h] at he
  simp [env_puts, he]

/-- Witness for C6: a batch whose second element is malformed is aborted
and yields an error. -/
theorem c6_bulk_abort_on_failure_witness :
    ([PutsElem.pair [1] [2], PutsElem.bad].any (elemFails (fun _ _ => 0))
        = true)
    ∧ env_puts (fun _ _ => 0) [PutsElem.pair [1] [2], PutsElem.bad] 0
        = (.aborted, none) :=
  ⟨by decide,
    c6_bulk_abort_on_failure (fun _ _ => 0)
      [PutsElem.pair [1] [2], PutsElem.bad] 0 (by decide)⟩

/-- Claim C7 counterexample: count() on a valid but unpositioned cursor
does not return 0 -- cursor_count forwards the engine EINVAL status and
raises EngineError. -/
theorem c7_count_unpositioned_counterexample :
    cursor_count_op true false 5 ≠ .ok 0
    ∧ cursor_count_op true false 5 = .raised (.engineError EINVAL) := by
  refine ⟨?_, rfl⟩
  intro h
  exact PyRes.noConfusion h

/-- Claim C7 (amended): count() on a valid unpositioned cursor raises
EngineError (the wrapper forwards the engine status with no positioned
check); when positioned it returns the number of duplicate values at the
current key. -/
theorem c7_count_behaviour :
    ∀ dups : Nat,
      cursor_count_op true false dups = .raised (.engineError EINVAL)
      ∧ cursor_count_op true true dups = .ok dups := by
  intro dups
  exact ⟨rfl, rfl⟩

/-- Claim C8: on a valid cursor, the first iterator step (started=false)
issues no cursor move and yields the cached item the initial positioning
landed on; a step with started=true issues exactly one move with the fixed
operator; a step finding the cursor unpositioned ends the sequence without
error, as does a move that comes back unpositioned without raising. -/
theorem c8_iterator_steps :
    ∀ (resp : EngineGetRes) (c : CursorSt) (it : IterSt),
      c.valid = true →
      (it.started = false → c.positioned = true →
        iter_next resp c it
          = (c, { it with started := true }, .yieldVal c.key c.val, []))
      ∧ (it.started = true → c.positioned = true →
        (iter_next resp c it).2.2.2 = [it.op])
      ∧ (c.positioned = false →
        iter_next resp c it = (c, it, .stopIter, []))
      ∧ (it.started = true → c.positioned = true →
        (cursor_get_c it.op resp c).2 = false →
        (cursor_get_c it.op resp c).1.positioned = false →
        (iter_next resp c it).2.2.1 = .stopIter) := by
  intro resp c it hv
  refine ⟨?_, ?_, ?_, ?_⟩
  · intro hs hp
    simp [iter_next, hv, hp, hs]
  · intro hs hp
    by_cases h1 : (cursor_get_c it.op resp c).2 <;>
      by_cases h2 : (cursor_get_c it.op resp c).1.positioned <;>
        simp [iter_next, hv, hp, hs, h1, h2]
  · intro hp
    simp [iter_next, hv, hp]
  · intro hs hp h1 h2
    simp [iter_next, hv, hp, hs, h1, h2]

/-- Witness for C8: a fresh (not started) iterator over a positioned
cursor yields the cached pair with no engine move. -/
theorem c8_iterator_steps_witness :
    (({ valid := true, positioned := true, key := [1], val := [2] }
        : CursorSt).valid = true)
    ∧ iter_next (.fail MDB_NOTFOUND)
        { valid := true, positioned := true, key := [1], val := [2] }
        { started := false, op := .next }
      = ({ valid := true, positioned := true, key := [1], val := [2] },
          { started := true, op := .next }, .yieldVal [1] [2], []) :=
  ⟨rfl,
    (c8_iterator_steps (.fail MDB_NOTFOUND)
        { valid := true, positioned := true, key := [1], val := [2] }
        { started := false, op := .next } rfl).1 rfl rfl⟩

/-- Claim C9: a delete supplied with a zero-length value behaves exactly
as if no value had been supplied: the computed value pointer is NULL in
both cases, the engine call is the same, and all duplicate values stored
under the key are removed from the store. -/
theorem c9_empty_value_deletes_all :
    ∀ (store : List (Bytes × Bytes)) (key : Bytes),
      generic_delete_valPtr (some []) = generic_delete_valPtr none
      ∧ generic_delete_call store key (some [])
          = generic_delete_call store key none
      ∧ ((generic_delete_call store key (some [])).2.all
          (fun p => decide (p.1 ≠ key)) = true) := by
  intro store key
  refine ⟨rfl, rfl, ?_⟩
  show ((mdb_del store key none).2.all (fun p => decide (p.1 ≠ key)) = true)
  simp only [mdb_del]
  by_cases h : store.any (fun p => decide (p.1 = key)) = true
  · rw [if_pos h]
    simp only [List.all_eq_true]
    intro p hp
    exact (List.mem_filter.mp hp).2
  · rw [if_neg h]
    simp only [List.any_eq_true, decide_eq_true_eq] at h
    push_neg at h
    simp only [List.all_eq_true, decide_eq_true_eq]
    intro p hp
    exact h p hp

/-- Claim C10: the claim says begin(write=true) on a read-only environment
raises EngineError before any engine transaction is begun, directly or via
Transaction construction.  The direct route holds: make_trans (and
env_begin) reject a write transaction on a read-only environment with
err_set before reaching mdb_txn_begin.  The constructor route is broken:
trans_new tests its env argument before parse_args has run, so Transaction
construction always raises TypeError, never the readonly EngineError. -/
theorem c10_readonly_write_begin :
    (∀ (s : EnvSt) (parentValid : Option Bool),
        s.valid = true → s.readonly = true → parentValid ≠ some false →
        make_trans s parentValid true = .readonlyErr
        ∧ env_begin s parentValid true = .readonlyErr)
    ∧ (∀ (e : Option EnvSt) (parentValid : Option Bool) (w b : Bool),
        trans_new e parentValid w b = .typeErr) := by
  constructor
  · intro s parentValid hv hr hp
    have hp2 : (parentValid = some false) = False := by
      simp only [eq_iff_iff, iff_false]
      exact hp
    constructor
    · simp [make_trans, hv, hr, hp2]
    · simp [env_begin, make_trans, hv, hr, hp2]
  · intro e parentValid w b
    rfl

/-- Witness for C10: a valid read-only environment with no parent argument
is rejected with the readonly EngineError on both make_trans and
env_begin. -/
theorem c10_readonly_write_begin_witness :
    (({ valid := true, envPtr := true, readonly := true } : EnvSt).valid
        = true)
    ∧ ((none : Option Bool) ≠ some false)
    ∧ (make_trans { valid := true, envPtr := true, readonly := true } none
          true = .readonlyErr
        ∧ env_begin { valid := true, envPtr := true, readonly := true } none
          true = .readonlyErr) :=
  ⟨rfl, by decide,
    c10_readonly_write_begin.1
      { valid := true, envPtr := true, readonly := true } none rfl rfl
      (by decide)⟩
